import Mathlib

/-!
Verification of the Financial-AI-DashBoard data-to-visualization layer.

The development embeds, as Lean functions over `ℚ`-valued series:
* the Top Shareholders ranking (`TopShareholders.js`): stable descending sort
  by ownership percentage and truncation to the top 10;
* the tooltip callbacks of the chart components (`RevenueTrend`, `EPSTrend`,
  `CostExpenses`), including the JavaScript truthiness test applied to
  numeric series entries;
* the upload form's file-selection and submit handlers (`UploadForm.js`);
* the orchestrator state held by `App.js` (`data` / `isLoading` / `error`)
  together with its upload and filter request handlers, as a step function
  over issue/completion events;
* the Filter Engine and Derived-Metrics Calculator, which in the running
  system live behind the `/api/upload` and `/api/filter` endpoints; these
  are modelled from the spec (§4.2, §4.3) as noted on each definition.
-/

/-- A shareholder entry of one year: name and ownership percentage,
as found in the `shareholders` tables consumed by `TopShareholders.js`. -/
structure Shareholder where
  sname : String
  ownership_percentage : ℚ
deriving DecidableEq, Repr

/-- The sort relation used by `TopShareholders.js`:
`(a, b) => b.ownership_percentage - a.ownership_percentage`, i.e. `a` may come
before `b` exactly when `b.ownership_percentage ≤ a.ownership_percentage`
(descending order; ECMAScript sort is stable, so ties keep input order). -/
def shLE (a b : Shareholder) : Prop :=
  b.ownership_percentage ≤ a.ownership_percentage

instance : DecidableRel shLE := fun a b =>
  inferInstanceAs (Decidable (b.ownership_percentage ≤ a.ownership_percentage))

instance : IsTotal Shareholder shLE :=
  ⟨fun a b => (le_total a.ownership_percentage b.ownership_percentage).symm⟩

instance : IsTrans Shareholder shLE :=
  ⟨fun _ _ _ hab hbc => le_trans hbc hab⟩

/-- `TopShareholders.js` line 12: `[...yearData].sort(...)`, a stable sort by
ownership percentage descending, embedded as insertion sort (stable). -/
def sortedShareholders (yearData : List Shareholder) : List Shareholder :=
  List.insertionSort shLE yearData

/-- Top-N ranking: stable descending sort then truncation to `n` entries.
`TopShareholders.js` line 15 instantiates `n := 10` (`.slice(0, 10)`). -/
def topNShareholders (n : ℕ) (yearData : List Shareholder) : List Shareholder :=
  (sortedShareholders yearData).take n

/-- `TopShareholders.js` line 15: `sortedShareholders.slice(0, 10)`. -/
def top10Shareholders (yearData : List Shareholder) : List Shareholder :=
  topNShareholders 10 yearData

/-- JavaScript `Array.prototype.indexOf`: index of the first occurrence,
`-1` when absent (`TopShareholders.js` line 8). -/
def jsIndexOf (l : List Int) (x : Int) : Int :=
  match l.indexOf? x with
  | some i => (i : Int)
  | none => -1

/-- JavaScript array subscript `t[i]`: `undefined` (here `none`) for a
negative or out-of-range index. -/
def jsArrayGet {α : Type} (t : List α) (i : Int) : Option α :=
  if i < 0 then none else t[i.toNat]?

/-- `TopShareholders.js` line 9:
`data.shareholders && data.shareholders[yearIndex] ? data.shareholders[yearIndex] : []`.
A missing table or a missing entry at the year's index totalizes to `[]`. -/
def yearDataOf (shareholders : Option (List (List Shareholder)))
    (years : List Int) (selectedYear : Int) : List Shareholder :=
  match shareholders with
  | none => []
  | some t =>
    match jsArrayGet t (jsIndexOf years selectedYear) with
    | none => []
    | some entry => entry

/-- The rendered body of the Top Shareholders view: a bar chart of the top-10
ranking when the year has data, otherwise a no-data message
(`TopShareholders.js` lines 103-107). -/
inductive ShareholderView where
  | chart (top10 : List Shareholder)
  | noData (year : Int)
deriving DecidableEq, Repr

/-- `TopShareholders.js` render: `yearData.length > 0 ? <Bar .../> : <no-data .../>`. -/
def renderTopShareholders (shareholders : Option (List (List Shareholder)))
    (years : List Int) (selectedYear : Int) : ShareholderView :=
  let yd := yearDataOf shareholders years selectedYear
  if 0 < yd.length then ShareholderView.chart (top10Shareholders yd)
  else ShareholderView.noData selectedYear

/-- Modelled from the spec: the Derived-Metrics Calculator `derive(...)` (§4.3)
is backend code not present under the supplied source; only its chart-side
consumers (`data.revenue_growth`, `data.eps_growth`, the in-tooltip computation
of `NetAssetShare.js`) appear. Year-over-year growth of a value series:
`growth[i] = (value[i] - value[i-1]) / value[i-1] * 100` for `i ≥ 1`; the
result list has one entry per consecutive pair, so the first year in view has
no growth entry (absence, not zero). -/
def yoyGrowth : List ℚ → List ℚ
  | a :: b :: t => ((b - a) / a * 100) :: yoyGrowth (b :: t)
  | _ => []

/-- Modelled from the spec: the Derived-Metrics Calculator's cost-to-revenue
ratio (§4.3) is backend code not present under the supplied source; only its
consumer (`data.cost_ratio` in `CostExpenses`) appears. The ratio is
`cost_of_sales / revenue * 100`, and is absent (`none`) when revenue is zero. -/
def costToRevenue (cost_of_sales revenue : ℚ) : Option ℚ :=
  if revenue = 0 then none else some (cost_of_sales / revenue * 100)

/-- One fiscal year's record, as described by the spec's data model (§3). -/
structure YearRecord where
  year : Int
  revenue : ℚ
  cost_of_sales : ℚ
  operating_expenses : ℚ
  gross_profit_margin : ℚ
  eps : ℚ
  net_asset_per_share : ℚ
  shareholders : List Shareholder
deriving DecidableEq

/-- A filter selection: requested years, industry tag, currency code
(the shape sent by `Filters.js` / held by `App.js`). -/
structure FilterSelection where
  years : List Int
  industry : String
  currency : String
deriving DecidableEq

/-- Modelled from the spec: the Filter Engine `apply(dataset, selection)`
(§4.2) lives behind the `/api/filter` endpoint, which is not present under
the supplied source; `Filters.js` and `App.js` only build and send the
selection. It keeps the year records whose year is requested, preserving
dataset order, and an empty requested set defaults to the full dataset
(never an empty view, never an error). -/
def applyFilter (dataset : List YearRecord) (sel : FilterSelection) : List YearRecord :=
  if sel.years = [] then dataset
  else dataset.filter (fun r => sel.years.contains r.year)

/-- Sign marker used by the tooltip text: `growth > 0 ? '+' : ''`. -/
def plusSign (v : ℚ) : String :=
  if 0 < v then "+" else ""

/-- The YoY growth tooltip line built by `RevenueTrend` / `EPSTrend`. -/
def yoyGrowthText (growth : ℚ) : String :=
  "YoY Growth: " ++ plusSign growth ++ toString growth ++ "%"

/-- The net profit tooltip line built by `EPSTrend`. -/
def netProfitText (v : ℚ) : String :=
  "Net Profit: " ++ toString v ++ " Billion"

/-- The cost-ratio tooltip line built by `CostExpenses`. -/
def costRatioText (v : ℚ) : String :=
  "Cost-to-Revenue Ratio: " ++ toString v ++ "%"

/-- `RevenueTrend` tooltip `afterLabel` (src/unnamed/part_001 lines 45-53):
`if (index > 0 && data.revenue_growth && data.revenue_growth[index - 1])`.
The third conjunct is a JavaScript truthiness test on the series entry, so a
missing entry and an entry equal to `0` both yield no growth line. -/
def revenueAfterLabel (revenue_growth : Option (List ℚ)) (index : ℕ) : Option String :=
  match revenue_growth with
  | none => none
  | some g =>
    if 0 < index then
      match g[index - 1]? with
      | none => none
      | some growth => if growth = 0 then none else some (yoyGrowthText growth)
    else none

/-- `EPSTrend` tooltip `afterLabel` (lines 45-61): a net profit line when
`data.net_profit[index]` is truthy, then a YoY growth line when `index > 0`
and `data.eps_growth[index - 1]` is truthy. -/
def epsAfterLabel (net_profit eps_growth : Option (List ℚ)) (index : ℕ) : List String :=
  (match net_profit with
   | none => []
   | some np =>
     match np[index]? with
     | none => []
     | some v => if v = 0 then [] else [netProfitText v]) ++
  (match eps_growth with
   | none => []
   | some g =>
     if 0 < index then
       match g[index - 1]? with
       | none => []
       | some growth => if growth = 0 then [] else [yoyGrowthText growth]
     else [])

/-- `CostExpenses` tooltip `afterBody` (src/unnamed/part_000 lines 47-53):
`if (data.cost_ratio && data.cost_ratio[index])` — again a truthiness test,
so a ratio entry of exactly `0` produces no line. -/
def costAfterBody (cost_ratio : Option (List ℚ)) (index : ℕ) : Option (List String) :=
  match cost_ratio with
  | none => none
  | some cr =>
    match cr[index]? with
    | none => none
    | some v => if v = 0 then none else some [costRatioText v]

/-- The `label` tooltip callback shared by `RevenueTrend` and `CostExpenses`:
dataset label, then the parsed value suffixed with the `Billion` unit when
present. -/
def datasetLabelText (datasetLabel : String) (y : Option ℚ) : String :=
  let base := if datasetLabel = "" then datasetLabel else datasetLabel ++ ": "
  match y with
  | none => base
  | some v => base ++ toString v ++ " Billion"

/-- The kind of in-flight operation of `App.js`: a file upload
(`handleFileUpload`) or a filter re-fetch (`fetchFilteredData`). -/
inductive OpKind where
  | upload
  | filter
deriving DecidableEq, Repr

/-- Result delivered to an `App.js` request: a dataset payload
(identified here by a number) or a transport failure. -/
inductive FetchResult where
  | ok (payload : ℕ)
  | err
deriving DecidableEq, Repr

/-- The orchestrator state of `App.js`: `data`, `isLoading`, `error`. -/
structure OrchState where
  data : Option ℕ
  isLoading : Bool
  error : Option String
deriving DecidableEq, Repr

/-- Initial `App.js` state: `data = null`, `isLoading = false`, `error = null`. -/
def initOrch : OrchState :=
  { data := none, isLoading := false, error := none }

/-- The error messages set by the catch blocks of `App.js`. -/
def errMsg : OpKind → String
  | OpKind.upload => "Failed to upload files. Please try again."
  | OpKind.filter => "Failed to filter data. Please try again."

/-- An orchestrator event: a request is issued (the start of
`handleFileUpload` / `fetchFilteredData`) or a request completes (its
`try`/`catch`/`finally` block runs on the response). The `seq` number is a
ghost annotation identifying the request; the source has no such counter, and
`orchStep` accordingly never inspects it. -/
inductive OrchEvent where
  | issue (op : OpKind) (seq : ℕ)
  | complete (op : OpKind) (seq : ℕ) (res : FetchResult)
deriving DecidableEq, Repr

/-- One `App.js` state transition. Issuing an upload sets `isLoading` and
clears `error` (lines 30-31); issuing a filter fetch sets `isLoading`
(line 60). On completion, a success stores the response as `data`
unconditionally (lines 44 and 63) and a failure sets `error` leaving
`data` untouched (lines 47 and 66); `finally` clears `isLoading`. -/
def orchStep (s : OrchState) : OrchEvent → OrchState
  | OrchEvent.issue OpKind.upload _ => { s with isLoading := true, error := none }
  | OrchEvent.issue OpKind.filter _ => { s with isLoading := true }
  | OrchEvent.complete _ _ (FetchResult.ok d) => { s with data := some d, isLoading := false }
  | OrchEvent.complete op _ FetchResult.err =>
    { s with error := some (errMsg op), isLoading := false }

/-- Run the orchestrator over a sequence of interleaved events. -/
def orchRun (s : OrchState) (events : List OrchEvent) : OrchState :=
  events.foldl orchStep s

/-- The last-request-wins discipline claimed by the spec (§5), stated over the
embedding: after any event prefix in which some request with a sequence number
greater than `k` has been issued, completing request `k` must not leave its
payload stored as the current dataset. -/
def staleResponseNeverApplied : Prop :=
  ∀ (pfx : List OrchEvent) (op : OpKind) (k d : ℕ),
    (∃ (op2 : OpKind) (k2 : ℕ), k < k2 ∧ OrchEvent.issue op2 k2 ∈ pfx) →
    (orchRun initOrch (pfx ++ [OrchEvent.complete op k (FetchResult.ok d)])).data ≠ some d

/-- A file as seen by `UploadForm.js`: name and MIME type. -/
structure JsFile where
  fname : String
  ftype : String
deriving DecidableEq, Repr

/-- `file.type === 'application/pdf'` (`UploadForm.js` line 9). -/
def isPdf (f : JsFile) : Bool :=
  f.ftype == "application/pdf"

/-- The component state of `UploadForm.js`: `files` and `message`. -/
structure UploadState where
  files : List JsFile
  message : String
deriving DecidableEq, Repr

/-- Initial `UploadForm` state: `files = []`, `message = ''`. -/
def initUpload : UploadState :=
  { files := [], message := "" }

/-- `UploadForm.js` `handleFileChange` (lines 7-17): keep only PDF files; if
any selected file was not a PDF, set an error message and leave the stored
file list unchanged; otherwise store the (all-PDF) selection. -/
def handleFileChange (s : UploadState) (selectedFiles : List JsFile) : UploadState :=
  let pdfFiles := selectedFiles.filter isPdf
  if pdfFiles.length ≠ selectedFiles.length then
    { s with message := "Please select only PDF files." }
  else
    { files := pdfFiles, message := toString pdfFiles.length ++ " file(s) selected." }

/-- `UploadForm.js` `handleSubmit` (lines 19-26): with no stored files, set a
message and do not invoke the upload callback; otherwise invoke `onUpload`
with the stored files (returned as the second component). -/
def handleSubmit (s : UploadState) : UploadState × Option (List JsFile) :=
  if s.files.length = 0 then
    ({ s with message := "Please select at least one PDF file." }, none)
  else (s, some s.files)

/-- A user interaction with the upload form. -/
inductive UploadEvent where
  | select (files : List JsFile)
  | submit
deriving DecidableEq, Repr

/-- One upload-form step; the second component is the `onUpload` argument
when the step invokes the callback. -/
def uploadStep (s : UploadState) : UploadEvent → UploadState × Option (List JsFile)
  | UploadEvent.select fs => (handleFileChange s fs, none)
  | UploadEvent.submit => handleSubmit s

/-- Run the upload form over a sequence of events, collecting every file list
passed to the `onUpload` callback. -/
def uploadRun : UploadState → List UploadEvent → UploadState × List (List JsFile)
  | s, [] => (s, [])
  | s, e :: rest =>
    let r := uploadStep s e
    let r2 := uploadRun r.1 rest
    (r2.1, r.2.toList ++ r2.2)

/-! ## Helper lemmas -/

/-- The growth series has one entry per consecutive pair of years. -/
theorem yoyGrowth_length : ∀ l : List ℚ, (yoyGrowth l).length = l.length - 1
  | [] => rfl
  | [_] => rfl
  | _ :: b :: t => by
    simp [yoyGrowth, yoyGrowth_length (b :: t)]

/-- Entry `j` of the growth series compares the values at positions `j`
and `j + 1`. -/
theorem yoyGrowth_getElem (l : List ℚ) :
    ∀ (j : ℕ) (a b : ℚ), l[j]? = some a → l[j + 1]? = some b →
      (yoyGrowth l)[j]? = some ((b - a) / a * 100) := by
  induction l with
  | nil => intro j a b h1 _; simp at h1
  | cons x t ih =>
    intro j a b h1 h2
    cases t with
    | nil =>
      cases j <;> simp at h2
    | cons y t2 =>
      cases j with
      | zero =>
        simp at h1 h2
        subst h1
        subst h2
        simp [yoyGrowth]
      | succ j =>
        simp only [List.getElem?_cons_succ] at h1 h2
        have := ih j a b h1 (by simpa using h2)
        simpa [yoyGrowth] using this

/-- Inserting an entry whose percentage is `q` commutes with filtering at
percentage `q`: every entry the insertion skips has a strictly larger
percentage. -/
theorem filter_orderedInsert_of_eq (q : ℚ) (a : Shareholder)
    (ha : a.ownership_percentage = q) :
    ∀ l : List Shareholder,
      (List.orderedInsert shLE a l).filter (fun s => decide (s.ownership_percentage = q)) =
        a :: l.filter (fun s => decide (s.ownership_percentage = q))
  | [] => by simp [List.orderedInsert, ha]
  | b :: t => by
    by_cases h : shLE a b
    · simp [List.orderedInsert, if_pos h, ha]
    · have hb : ¬ b.ownership_percentage = q := by
        intro hbq
        exact h (le_of_eq (hbq.trans ha.symm))
      simp [List.orderedInsert, if_neg h, hb, filter_orderedInsert_of_eq q a ha t]

/-- Inserting an entry whose percentage is not `q` leaves the filter at
percentage `q` unchanged. -/
theorem filter_orderedInsert_of_ne (q : ℚ) (a : Shareholder)
    (ha : ¬ a.ownership_percentage = q) :
    ∀ l : List Shareholder,
      (List.orderedInsert shLE a l).filter (fun s => decide (s.ownership_percentage = q)) =
        l.filter (fun s => decide (s.ownership_percentage = q))
  | [] => by simp [List.orderedInsert, ha]
  | b :: t => by
    by_cases h : shLE a b
    · simp [List.orderedInsert, if_pos h, ha]
    · simp only [List.orderedInsert, if_neg h]
      rw [List.filter_cons, List.filter_cons, filter_orderedInsert_of_ne q a ha t]

/-- Stability of the shareholder sort: restricted to any one ownership
percentage, the sorted list is the input list (equal-percentage entries keep
their original relative order). -/
theorem filter_sortedShareholders (q : ℚ) :
    ∀ l : List Shareholder,
      (sortedShareholders l).filter (fun s => decide (s.ownership_percentage = q)) =
        l.filter (fun s => decide (s.ownership_percentage = q))
  | [] => rfl
  | a :: t => by
    have ih := filter_sortedShareholders q t
    simp only [sortedShareholders, List.insertionSort] at ih ⊢
    by_cases ha : a.ownership_percentage = q
    · rw [filter_orderedInsert_of_eq q a ha, ih, List.filter_cons]
      simp [ha]
    · rw [filter_orderedInsert_of_ne q a ha, ih, List.filter_cons]
      simp [ha]

/-- `handleFileChange` either rejects the selection (files unchanged) or
stores exactly the PDF filter of the selection. -/
theorem handleFileChange_cases (s : UploadState) (sel : List JsFile) :
    handleFileChange s sel = { s with message := "Please select only PDF files." }
    ∨ handleFileChange s sel =
      { files := sel.filter isPdf,
        message := toString (sel.filter isPdf).length ++ " file(s) selected." } := by
  by_cases h : (sel.filter isPdf).length ≠ sel.length
  · exact Or.inl (by simp [handleFileChange, h])
  · exact Or.inr (by simp [handleFileChange, h])

/-- The stored file list of the upload form only ever holds PDF files. -/
theorem handleFileChange_files_pdf (s : UploadState) (sel : List JsFile)
    (hs : ∀ f ∈ s.files, isPdf f = true) :
    ∀ f ∈ (handleFileChange s sel).files, isPdf f = true := by
  rcases handleFileChange_cases s sel with h | h
  · rw [h]; exact hs
  · rw [h]
    intro f hf
    exact (List.mem_filter.mp hf).2

/-- Every file list the upload form passes to the `onUpload` callback is
non-empty and all-PDF, provided the state's stored files are all PDF. -/
theorem uploadRun_emits (evs : List UploadEvent) :
    ∀ s : UploadState, (∀ f ∈ s.files, isPdf f = true) →
      ∀ l ∈ (uploadRun s evs).2, l ≠ [] ∧ ∀ f ∈ l, isPdf f = true := by
  induction evs with
  | nil =>
    intro s _ l hl
    simp [uploadRun] at hl
  | cons e rest ih =>
    intro s hs l hl
    cases e with
    | select fs =>
      simp only [uploadRun, uploadStep, Option.toList, List.nil_append] at hl
      exact ih (handleFileChange s fs) (handleFileChange_files_pdf s fs hs) l hl
    | submit =>
      by_cases h : s.files.length = 0
      · simp only [uploadRun, uploadStep, handleSubmit, if_pos h, Option.toList,
          List.nil_append] at hl
        exact ih { s with message := "Please select at least one PDF file." }
          (fun f hf => hs f hf) l hl
      · simp only [uploadRun, uploadStep, handleSubmit, if_neg h, Option.toList,
          List.cons_append, List.nil_append, List.mem_cons] at hl
        rcases hl with rfl | hl
        · refine ⟨fun hnil => h ?_, hs⟩
          rw [hnil]
          rfl
        · exact ih s hs l hl

/-! ## Claim theorems -/

/-- Claim C1: for every non-empty value series of a growth-bearing metric
(revenue, EPS, net asset per share, gross margin), the year-over-year growth
series has length equal to the view length minus 1 — so the first year in view
has no growth entry (absent, not zero) — and for every `i ≥ 1` the entry
aligned to year `i` equals `(value[i] - value[i-1]) / value[i-1] * 100`. -/
theorem growth_series_spec (values : List ℚ) (_hne : values ≠ []) :
    (yoyGrowth values).length = values.length - 1
    ∧ ∀ i : ℕ, 1 ≤ i → i < values.length →
        ∃ a b : ℚ, values[i - 1]? = some a ∧ values[i]? = some b ∧
          (yoyGrowth values)[i - 1]? = some ((b - a) / a * 100) := by
  refine ⟨yoyGrowth_length values, fun i hi hilt => ?_⟩
  have h1 : i - 1 < values.length := lt_of_le_of_lt (Nat.sub_le i 1) hilt
  refine ⟨values[i - 1], values[i], List.getElem?_eq_getElem h1,
    List.getElem?_eq_getElem hilt, ?_⟩
  have hsucc : i - 1 + 1 = i := Nat.succ_pred_eq_of_pos hi
  exact yoyGrowth_getElem values (i - 1) values[i - 1] values[i]
    (List.getElem?_eq_getElem h1)
    (by rw [hsucc]; exact List.getElem?_eq_getElem hilt)

/-- Witness for C1: the spec's own scenario, revenue going from 100 to 80
gives a single growth entry of -20 percent and none for the first year. -/
theorem growth_series_spec_witness :
    (yoyGrowth [100, 80]).length = 1
    ∧ ∃ a b : ℚ, ([(100 : ℚ), 80])[0]? = some a ∧ ([(100 : ℚ), 80])[1]? = some b ∧
        (yoyGrowth [100, 80])[0]? = some ((b - a) / a * 100) := by
  obtain ⟨h1, h2⟩ := growth_series_spec [100, 80] (by simp)
  exact ⟨h1, h2 1 (by norm_num) (by norm_num)⟩

/-- Claim C3: the cost-to-revenue ratio of a year is absent (`none`) when the
year's revenue is zero — never infinity, NaN or a number — and equals
`cost_of_sales / revenue * 100` when revenue is non-zero. -/
theorem cost_ratio_zero_revenue_absent (cost revenue : ℚ) :
    (revenue = 0 → costToRevenue cost revenue = none)
    ∧ (revenue ≠ 0 → costToRevenue cost revenue = some (cost / revenue * 100)) := by
  constructor
  · intro h
    simp [costToRevenue, h]
  · intro h
    simp [costToRevenue, h]

/-- Witness for C3: a zero-revenue year has no ratio; a year with revenue 200
and cost 50 has ratio 25. -/
theorem cost_ratio_zero_revenue_absent_witness :
    costToRevenue 50 0 = none ∧ costToRevenue 50 200 = some 25 := by
  constructor
  · exact (cost_ratio_zero_revenue_absent 50 0).1 rfl
  · rw [(cost_ratio_zero_revenue_absent 50 200).2 (by norm_num)]
    norm_num

/-- Claim C4: applying a filter selection whose requested year set is empty
yields the full dataset, all years in order, rather than an empty view or an
error; the Filter Engine is total, so no EmptySelectionError exists. -/
theorem empty_selection_full_dataset (dataset : List YearRecord)
    (sel : FilterSelection) (h : sel.years = []) :
    applyFilter dataset sel = dataset := by
  simp [applyFilter, h]

/-- Witness for C4: the spec's scenario — the selection
`{years: [], industry: "All", currency: "LKR"}` on a 6-year dataset returns
all 6 years. -/
theorem empty_selection_full_dataset_witness :
    applyFilter
      ([2019, 2020, 2021, 2022, 2023, 2024].map
        (fun y => YearRecord.mk y 0 0 0 0 0 0 []))
      (FilterSelection.mk [] "All" "LKR") =
      [2019, 2020, 2021, 2022, 2023, 2024].map
        (fun y => YearRecord.mk y 0 0 0 0 0 0 []) :=
  empty_selection_full_dataset _ _ rfl

/-- Claim C2: the top-N ranking of one year's shareholder entries is the
input list stably sorted by ownership percentage descending — the sorted list
is a permutation of the input, is sorted under `shLE` (descending
percentages), and restricted to any single percentage value equals the input
restricted to that value, so ties keep their original relative order — then
truncated to at most `n` entries; the component instantiates `n` with the
default 10. -/
theorem topN_ranking_spec (yearData : List Shareholder) (n : ℕ) :
    List.Perm (sortedShareholders yearData) yearData
    ∧ List.Sorted shLE (sortedShareholders yearData)
    ∧ (∀ q : ℚ,
        (sortedShareholders yearData).filter (fun s => decide (s.ownership_percentage = q)) =
          yearData.filter (fun s => decide (s.ownership_percentage = q)))
    ∧ topNShareholders n yearData = (sortedShareholders yearData).take n
    ∧ (topNShareholders n yearData).length ≤ n
    ∧ top10Shareholders yearData = topNShareholders 10 yearData := by
  refine ⟨List.perm_insertionSort shLE yearData, List.sorted_insertionSort shLE yearData,
    fun q => filter_sortedShareholders q yearData, rfl, ?_, rfl⟩
  exact List.length_take_le n (sortedShareholders yearData)

/-- Claim C7: the rank-and-truncate operation is idempotent — applying it
with the same `n` to its own output returns that output unchanged. -/
theorem topN_idempotent (yearData : List Shareholder) (n : ℕ) :
    topNShareholders n (topNShareholders n yearData) = topNShareholders n yearData := by
  unfold topNShareholders
  have hsorted : List.Sorted shLE ((sortedShareholders yearData).take n) :=
    (List.sorted_insertionSort shLE yearData).sublist
      (List.take_sublist n (sortedShareholders yearData))
  rw [show sortedShareholders ((sortedShareholders yearData).take n) =
      (sortedShareholders yearData).take n from hsorted.insertionSort_eq]
  exact List.take_of_length_le (List.length_take_le n (sortedShareholders yearData))

/-- Claim C10: when the shareholders table is missing, or has no entry at the
selected year's index (including the index -1 produced by a year that is not
in `data.years`), the Top Shareholders view totalizes the lookup to `[]` and
renders the no-data message instead of a chart. -/
theorem missing_shareholders_no_data
    (shareholders : Option (List (List Shareholder))) (years : List Int) (y : Int) :
    (shareholders = none →
      yearDataOf shareholders years y = []
      ∧ renderTopShareholders shareholders years y = ShareholderView.noData y)
    ∧ (∀ t : List (List Shareholder), shareholders = some t →
        jsArrayGet t (jsIndexOf years y) = none →
          yearDataOf shareholders years y = []
          ∧ renderTopShareholders shareholders years y = ShareholderView.noData y) := by
  constructor
  · intro h
    subst h
    exact ⟨rfl, rfl⟩
  · intro t ht hget
    subst ht
    constructor
    · simp [yearDataOf, hget]
    · simp [renderTopShareholders, yearDataOf, hget]

/-- Witness for C10: a dataset with no shareholders table, and one whose
table has no entry for the selected year, both render the no-data message. -/
theorem missing_shareholders_no_data_witness :
    (yearDataOf none [2024] 2024 = []
      ∧ renderTopShareholders none [2024] 2024 = ShareholderView.noData 2024)
    ∧ (yearDataOf (some [[]]) [2023, 2024] 2024 = []
      ∧ renderTopShareholders (some [[]]) [2023, 2024] 2024 = ShareholderView.noData 2024) := by
  constructor
  · exact (missing_shareholders_no_data none [2024] 2024).1 rfl
  · exact (missing_shareholders_no_data (some [[]]) [2023, 2024] 2024).2 [[]] rfl (by decide)

/-- Counterexample to claim C5: `App.js` stores every successful response
unconditionally (`setData(response.data)` with no sequence check), so in the
interleaving issue-upload-0, issue-filter-1, complete-upload-0 the payload of
request 0 ends up stored even though request 1 was issued first — the
last-request-wins discipline stated by the spec does not hold. -/
theorem stale_response_applied :
    ¬ staleResponseNeverApplied
    ∧ (orchRun initOrch
        [OrchEvent.issue OpKind.upload 0, OrchEvent.issue OpKind.filter 1,
         OrchEvent.complete OpKind.upload 0 (FetchResult.ok 7)]).data = some 7 := by
  constructor
  · intro h
    exact h [OrchEvent.issue OpKind.upload 0, OrchEvent.issue OpKind.filter 1]
      OpKind.upload 0 7
      ⟨OpKind.filter, 1, Nat.zero_lt_one, by simp⟩ rfl
  · rfl

/-- Claim C5 as amended: the orchestrator carries no request sequence number
and performs no staleness comparison at completion time — every successful
completion stores its payload as the current dataset unconditionally, and the
transition is independent of the (ghost) sequence number, so the stored
dataset follows a last-response-wins discipline, not last-request-wins. -/
theorem completion_ignores_sequence :
    (∀ (s : OrchState) (op : OpKind) (k d : ℕ),
      (orchStep s (OrchEvent.complete op k (FetchResult.ok d))).data = some d)
    ∧ (∀ (s : OrchState) (op : OpKind) (k1 k2 : ℕ) (res : FetchResult),
        orchStep s (OrchEvent.complete op k1 res) = orchStep s (OrchEvent.complete op k2 res)) := by
  constructor
  · intro s op k d
    rfl
  · intro s op k1 k2 res
    cases res <;> rfl

/-- Claim C6: when an upload or filter request fails, the orchestrator enters
the error state (`error` set to the operation's retry message, `isLoading`
cleared) while the previously held dataset is left unchanged; and the dataset
reference changes only on a successful completion, which stores the response. -/
theorem failure_retains_dataset (s : OrchState) (op : OpKind) (k : ℕ) :
    (orchStep s (OrchEvent.complete op k FetchResult.err)).data = s.data
    ∧ (orchStep s (OrchEvent.complete op k FetchResult.err)).error = some (errMsg op)
    ∧ (orchStep s (OrchEvent.complete op k FetchResult.err)).isLoading = false
    ∧ ∀ e : OrchEvent, (orchStep s e).data ≠ s.data →
        ∃ (op2 : OpKind) (k2 d : ℕ),
          e = OrchEvent.complete op2 k2 (FetchResult.ok d)
          ∧ (orchStep s e).data = some d := by
  refine ⟨rfl, rfl, rfl, ?_⟩
  intro e he
  cases e with
  | issue op2 k2 =>
    cases op2 <;> exact absurd rfl he
  | complete op2 k2 res =>
    cases res with
    | ok d => exact ⟨op2, k2, d, rfl, rfl⟩
    | err => exact absurd rfl he

/-- Witness for C6: from the initial state, a failed upload keeps `data`
empty and sets the retry message, and a successful completion is the shape of
event that changes `data`. -/
theorem failure_retains_dataset_witness :
    ((orchStep initOrch (OrchEvent.complete OpKind.upload 0 FetchResult.err)).data = initOrch.data
      ∧ (orchStep initOrch (OrchEvent.complete OpKind.upload 0 FetchResult.err)).error =
          some (errMsg OpKind.upload))
    ∧ ∃ (op2 : OpKind) (k2 d : ℕ),
        OrchEvent.complete OpKind.upload 0 (FetchResult.ok 5) =
          OrchEvent.complete op2 k2 (FetchResult.ok d)
        ∧ (orchStep initOrch (OrchEvent.complete OpKind.upload 0 (FetchResult.ok 5))).data = some d := by
  obtain ⟨h1, h2, _, h4⟩ := failure_retains_dataset initOrch OpKind.upload 0
  exact ⟨⟨h1, h2⟩, h4 (OrchEvent.complete OpKind.upload 0 (FetchResult.ok 5)) (by simp [orchStep, initOrch])⟩

/-- Counterexample to claim C8: the tooltip callbacks test the growth/ratio
entry for JavaScript truthiness, so a defined growth value of exactly zero is
omitted — with the revenue growth series `[0]`, the entry for year index 1 is
defined (`some 0`) yet `RevenueTrend`'s `afterLabel` produces no growth line,
contradicting the claim that a defined value of exactly zero is included. -/
theorem zero_growth_tooltip_omitted :
    ([(0 : ℚ)])[1 - 1]? = some 0
    ∧ revenueAfterLabel (some [0]) 1 = none
    ∧ costAfterBody (some [0]) 0 = none
    ∧ epsAfterLabel none (some [0]) 1 = [] := by
  exact ⟨rfl, rfl, rfl, rfl⟩

/-- Claim C8 as amended: the tooltip text for a year includes the
unit-qualified value, and includes the growth/ratio figure at every index
`i ≥ 1` at which the growth/ratio series defines a non-zero value; a defined
value of exactly zero (or a missing entry) is omitted, because the callbacks
test the entry for JavaScript truthiness. -/
theorem tooltip_includes_nonzero_growth (g : List ℚ) (i : ℕ) (v : ℚ)
    (hi : 1 ≤ i) (hv : g[i - 1]? = some v) :
    revenueAfterLabel (some g) i = (if v = 0 then none else some (yoyGrowthText v))
    ∧ epsAfterLabel none (some g) i = (if v = 0 then [] else [yoyGrowthText v])
    ∧ (∀ (cr : List ℚ) (w : ℚ), cr[i]? = some w →
        costAfterBody (some cr) i = if w = 0 then none else some [costRatioText w])
    ∧ (∀ u : ℚ, datasetLabelText "Revenue (Billions)" (some u) =
        "Revenue (Billions): " ++ toString u ++ " Billion") := by
  have hipos : 0 < i := hi
  refine ⟨?_, ?_, ?_, ?_⟩
  · simp [revenueAfterLabel, hipos, hv]
  · simp [epsAfterLabel, hipos, hv]
  · intro cr w hw
    simp [costAfterBody, hw]
  · intro u
    simp [datasetLabelText]

/-- Witness for C8 (amended): a non-zero growth of 5 percent at year index 1
yields a growth line in the revenue and EPS tooltips, and a non-zero cost
ratio of 12 at index 1 yields a ratio line. -/
theorem tooltip_includes_nonzero_growth_witness :
    revenueAfterLabel (some [5]) 1 = some (yoyGrowthText 5)
    ∧ epsAfterLabel none (some [5]) 1 = [yoyGrowthText 5]
    ∧ costAfterBody (some [0, 12]) 1 = some [costRatioText 12] := by
  obtain ⟨h1, h2, h3, _⟩ := tooltip_includes_nonzero_growth [5] 1 5 le_rfl rfl
  rw [if_neg (by norm_num : ¬ (5 : ℚ) = 0)] at h1 h2
  have h3c := h3 [0, 12] 12 rfl
  rw [if_neg (by norm_num : ¬ (12 : ℚ) = 0)] at h3c
  exact ⟨h1, h2, h3c⟩

/-- Claim C9: over every sequence of file-selection and submit events, the
upload callback is invoked only with a non-empty list of PDF files; a
selection containing any non-PDF file leaves the stored file list unchanged
and only sets the error message. -/
theorem upload_only_pdf (events : List UploadEvent) :
    (∀ l ∈ (uploadRun initUpload events).2, l ≠ [] ∧ ∀ f ∈ l, isPdf f = true)
    ∧ (∀ (s : UploadState) (sel : List JsFile),
        (∃ f ∈ sel, isPdf f = false) →
          (handleFileChange s sel).files = s.files
          ∧ (handleFileChange s sel).message = "Please select only PDF files.") := by
  constructor
  · exact uploadRun_emits events initUpload (by simp [initUpload])
  · intro s sel hbad
    obtain ⟨f, hf, hnp⟩ := hbad
    have hlt : (sel.filter isPdf).length < sel.length :=
      List.length_filter_lt_length_iff_exists.mpr ⟨f, hf, by simp [hnp]⟩
    have hne : (sel.filter isPdf).length ≠ sel.length := Nat.ne_of_lt hlt
    constructor
    · simp [handleFileChange, hne]
    · simp [handleFileChange, hne]

/-- Witness for C9: selecting one PDF and submitting invokes the callback
with that non-empty PDF list; selecting a text file leaves the stored list
unchanged and sets the error message. -/
theorem upload_only_pdf_witness :
    ([JsFile.mk "a.pdf" "application/pdf"] ≠ []
      ∧ ∀ f ∈ [JsFile.mk "a.pdf" "application/pdf"], isPdf f = true)
    ∧ ((handleFileChange initUpload [JsFile.mk "b.txt" "text/plain"]).files = initUpload.files
      ∧ (handleFileChange initUpload [JsFile.mk "b.txt" "text/plain"]).message =
          "Please select only PDF files.") := by
  obtain ⟨h1, h2⟩ :=
    upload_only_pdf [UploadEvent.select [JsFile.mk "a.pdf" "application/pdf"], UploadEvent.submit]
  refine ⟨h1 [JsFile.mk "a.pdf" "application/pdf"] ?_,
    h2 initUpload [JsFile.mk "b.txt" "text/plain"]
      ⟨JsFile.mk "b.txt" "text/plain", by simp, by simp [isPdf]⟩⟩
  simp [uploadRun, uploadStep, handleFileChange, handleSubmit, isPdf, initUpload]
